import Mathlib

/-!
Shallow embedding of the multi-agent task-coordination core of the
Brolostack example WebSocket server (fastapi_server.py): agent/session
registries, task matching and dispatch, progress reporting, collaboration
routing, disconnect cleanup and derived server statistics, together with
theorems settling the specification claims about that core.

Python dicts are modelled as insertion-ordered association lists; absent
dictionary keys read through `.get(k, default)` are modelled as `Option`
fields with explicit defaulting; timestamps are naturals (milliseconds);
the float arithmetic of the health endpoint is modelled over the rationals.
-/

/-- Insertion-ordered dictionary lookup: value of the first entry with the
given key, mirroring Python `d[k]` / `k in d`. -/
def dget? {κ α : Type} [DecidableEq κ] (d : List (κ × α)) (k : κ) : Option α :=
  match d with
  | [] => none
  | (k', v) :: rest => if k' = k then some v else dget? rest k

/-- Insertion-ordered dictionary update `d[k] = v`: replaces the value in
place when the key is present, appends at the end otherwise. -/
def dinsert {κ α : Type} [DecidableEq κ] (d : List (κ × α)) (k : κ) (v : α) :
    List (κ × α) :=
  match d with
  | [] => [(k, v)]
  | (k', v') :: rest => if k' = k then (k', v) :: rest else (k', v') :: dinsert rest k v

/-- Dictionary deletion `del d[k]`. -/
def derase {κ α : Type} [DecidableEq κ] (d : List (κ × α)) (k : κ) :
    List (κ × α) :=
  match d with
  | [] => []
  | (k', v) :: rest => if k' = k then derase rest k else (k', v) :: derase rest k

/-- Membership test `k in d`. -/
def dcontains {κ α : Type} [DecidableEq κ] (d : List (κ × α)) (k : κ) : Bool :=
  match d with
  | [] => false
  | (k', _) :: rest => if k' = k then true else dcontains rest k

/-- Python truthiness of an optional string: `None` and the empty string are
falsy. -/
def truthy : Option String → Bool
  | none => false
  | some s => decide (s ≠ "")

/-- Resource limits carried in an agent's metadata dictionary. -/
structure AgentMetadata where
  currentTasks : Option Nat
  maxConcurrentTasks : Option Nat
deriving DecidableEq, Repr

/-- An agent record as stored in the registries (the raw agent_info
dictionary with the socket id stamped on registration). -/
structure Agent where
  id : String
  type : Option String
  capabilities : Option (List String)
  status : Option String
  socket_id : Option String
  metadata : Option AgentMetadata
deriving DecidableEq, Repr

/-- Task requirements dictionary: required capability tags and acceptable
agent types, either possibly absent. -/
structure Requirements where
  capabilities : Option (List String)
  agentTypes : Option (List String)
deriving DecidableEq, Repr

/-- An inbound task definition payload. -/
structure TaskDefinition where
  id : Option String
  sessionId : Option String
  requirements : Option Requirements
  collaborationMode : Option String
deriving DecidableEq, Repr

/-- An inbound agent-progress payload. -/
structure ProgressData where
  sessionId : Option String
  taskId : Option String
  status : Option String
deriving DecidableEq, Repr

/-- An inbound collaboration-request payload. -/
structure RequestData where
  sessionId : Option String
  requestId : Option String
  targetAgent : Option String
deriving DecidableEq, Repr

/-- A task record stored in a session: the submitted definition plus the
server-stamped fields. -/
structure TaskRecord where
  definition : TaskDefinition
  startTime : Nat
  status : String
  lastProgress : Option ProgressData
  lastUpdate : Option Nat
deriving DecidableEq, Repr

/-- A stored collaboration request. -/
structure CollabRecord where
  data : RequestData
  timestamp : Nat
  status : String
deriving DecidableEq, Repr

/-- Per-session cumulative metrics. -/
structure Metrics where
  totalTasks : Nat
  completedTasks : Nat
  errorCount : Nat
  avgExecutionTime : Nat
deriving DecidableEq, Repr

/-- A session record. -/
structure Session where
  sessionId : String
  createdAt : Nat
  lastActivity : Nat
  status : String
  agents : List (String × Agent)
  tasks : List (String × TaskRecord)
  collaborationRequests : List (Option String × CollabRecord)
  metrics : Metrics
deriving DecidableEq, Repr

/-- Server-wide counters. -/
structure ServerStats where
  start_time : Nat
  connections : Nat
  messages_processed : Nat
  tasks_completed : Nat
  errors : Nat
deriving DecidableEq, Repr

/-- The whole mutable server state: the session registry, the agent
registry and the server-wide counters. -/
structure ServerState where
  active_sessions : List (String × Session)
  registered_agents : List (String × Agent)
  server_stats : ServerStats
deriving DecidableEq, Repr

/-- Delivery scope of an outbound event: a single connection's own room or
a session room. -/
inductive Room where
  | conn (sid : String)
  | session (sessionId : String)
deriving DecidableEq, Repr

/-- Outbound events emitted by the core. -/
inductive Event where
  | errorMsg (message : String)
  | sessionState (sess : Session)
  | agentUnregistered (sessionId : String) (agentId : String) (reason : String) (timestamp : Nat)
  | taskError (taskId : String) (error : String) (requirements : Option Requirements)
      (availableAgents : Nat) (timestamp : Nat)
  | taskAssigned (taskId : String) (agentId : String) (mode : String)
      (taskDefinition : TaskDefinition) (timestamp : Nat)
  | taskProgress (sessionId : String) (progress : ProgressData) (serverTimestamp : Nat)
  | collabRequest (data : RequestData) (timestamp : Nat)
  | collabError (requestId : Option String) (target : String) (timestamp : Nat)
deriving DecidableEq, Repr

/-- The initial server_stats dictionary. -/
def initial_server_stats (start_time : Nat) : ServerStats :=
  { start_time := start_time, connections := 0, messages_processed := 0,
    tasks_completed := 0, errors := 0 }

/-- requirements.get('capabilities', []) with requirements itself defaulted
to the empty dictionary. -/
def requiredCapabilities (td : TaskDefinition) : List String :=
  (td.requirements.bind (fun r => r.capabilities)).getD []

/-- requirements.get('agentTypes', []) with requirements itself defaulted
to the empty dictionary. -/
def requiredAgentTypes (td : TaskDefinition) : List String :=
  (td.requirements.bind (fun r => r.agentTypes)).getD []

/-- agent.get('capabilities', []). -/
def Agent.capabilitiesD (a : Agent) : List String :=
  a.capabilities.getD []

/-- agent.get('metadata', \x7b\x7d).get('currentTasks', 0). -/
def Agent.currentTasksD (a : Agent) : Nat :=
  (a.metadata.bind (fun m => m.currentTasks)).getD 0

/-- agent.get('metadata', \x7b\x7d).get('maxConcurrentTasks', 1). -/
def Agent.maxTasksD (a : Agent) : Nat :=
  (a.metadata.bind (fun m => m.maxConcurrentTasks)).getD 1

/-- The agent-type filter of the matcher: pass when the allow-list is empty
or the agent's type is present and listed. -/
def typeAllowed (td : TaskDefinition) (a : Agent) : Bool :=
  (requiredAgentTypes td).isEmpty ||
    (match a.type with
     | some t => (requiredAgentTypes td).contains t
     | none => false)

/-- The capability filter of the matcher: every required capability tag is
among the agent's capabilities. -/
def capsCovered (td : TaskDefinition) (a : Agent) : Bool :=
  (requiredCapabilities td).all (fun cap => (a.capabilitiesD).contains cap)

/-- The availability filter of the matcher: status idle and strictly below
the concurrent-task limit. -/
def agentSuitable (td : TaskDefinition) (a : Agent) : Bool :=
  typeAllowed td a && capsCovered td a && decide (a.status = some "idle") &&
    decide (a.currentTasksD < a.maxTasksD)

/-- One iteration of the matcher's loop: skip the agent when the type,
capability or availability checks fail, append it otherwise. -/
def matcherStep (td : TaskDefinition) (suitable : List Agent) (p : String × Agent) :
    List Agent :=
  let agent := p.2
  if !(typeAllowed td agent) then suitable
  else if !(capsCovered td agent) then suitable
  else if agent.status = some "idle" then
    if agent.currentTasksD < agent.maxTasksD then suitable ++ [agent]
    else suitable
  else suitable

/-- find_suitable_agents: iterate the session's agents in insertion order,
skipping agents that fail the type, capability or availability checks. -/
def find_suitable_agents (td : TaskDefinition) (session_id : String)
    (sessions : List (String × Session)) : List Agent :=
  match dget? sessions session_id with
  | none => []
  | some session =>
    session.agents.foldl (matcherStep td) []

/-- The default session structure created on first join. -/
def default_session (session_id : String) (now : Nat) : Session :=
  { sessionId := session_id, createdAt := now, lastActivity := now,
    status := "active", agents := [], tasks := [], collaborationRequests := [],
    metrics := { totalTasks := 0, completedTasks := 0, errorCount := 0,
                 avgExecutionTime := 0 } }

/-- Payload of a join-session event. -/
structure JoinData where
  sessionId : Option String
deriving DecidableEq, Repr

/-- join_session handler: validates the session id, lazily creates the
session, always refreshes lastActivity, and replies with the session state
to the caller only. -/
def join_session (st : ServerState) (sid : String) (now : Nat) (data : JoinData) :
    ServerState × List (Room × Event) :=
  match data.sessionId with
  | none => (st, [(Room.conn sid, Event.errorMsg "Session ID required")])
  | some session_id =>
    if session_id = "" then
      (st, [(Room.conn sid, Event.errorMsg "Session ID required")])
    else
      let sessions1 :=
        if dcontains st.active_sessions session_id then st.active_sessions
        else dinsert st.active_sessions session_id (default_session session_id now)
      match dget? sessions1 session_id with
      | some sess =>
        let sess' := { sess with lastActivity := now }
        ({ st with active_sessions := dinsert sessions1 session_id sess' },
         [(Room.conn sid, Event.sessionState sess')])
      | none => ({ st with active_sessions := sessions1 }, [])

/-- start_task handler: validates the task id, records the task (status
started) when its session exists, runs the matcher, and either reports a
task-error or assigns per the collaboration mode. -/
def start_task (st : ServerState) (sid : String) (now : Nat) (td : TaskDefinition) :
    ServerState × List (Room × Event) :=
  let session_id := td.sessionId.getD "default"
  match td.id with
  | none => (st, [(Room.conn sid, Event.errorMsg "Task ID required")])
  | some tid =>
    if tid = "" then (st, [(Room.conn sid, Event.errorMsg "Task ID required")])
    else
      let stats1 :=
        { st.server_stats with
          messages_processed := st.server_stats.messages_processed + 1 }
      let sessions1 :=
        match dget? st.active_sessions session_id with
        | some sess =>
          dinsert st.active_sessions session_id
            { sess with
              tasks := dinsert sess.tasks tid
                { definition := td, startTime := now, status := "started",
                  lastProgress := none, lastUpdate := none },
              metrics := { sess.metrics with totalTasks := sess.metrics.totalTasks + 1 },
              lastActivity := now }
        | none => st.active_sessions
      let suitable_agents := find_suitable_agents td session_id sessions1
      match suitable_agents with
      | [] =>
        let availableAgents :=
          match dget? sessions1 session_id with
          | some sess => sess.agents.length
          | none => 0
        ({ st with
             active_sessions := sessions1,
             server_stats := { stats1 with errors := stats1.errors + 1 } },
         [(Room.session session_id,
           Event.taskError tid "No suitable agents found for task" td.requirements
             availableAgents now)])
      | agent :: _ =>
        let mode := td.collaborationMode.getD "sequential"
        ({ st with active_sessions := sessions1, server_stats := stats1 },
         if mode = "parallel" then
           suitable_agents.map
             (fun a => (Room.session session_id, Event.taskAssigned tid a.id "parallel" td now))
         else
           [(Room.session session_id, Event.taskAssigned tid agent.id "sequential" td now)])

/-- agent_progress handler: forwards the (timestamped) progress to the
session room unconditionally; when the session exists and a task id is
present it merges the progress into a stored task, refreshes lastActivity
and counts completions. -/
def agent_progress (st : ServerState) (_sid : String) (now : Nat) (pd : ProgressData) :
    ServerState × List (Room × Event) :=
  let session_id := pd.sessionId.getD "default"
  let stats1 :=
    { st.server_stats with
      messages_processed := st.server_stats.messages_processed + 1 }
  let ev : List (Room × Event) :=
    [(Room.session session_id, Event.taskProgress session_id pd now)]
  match dget? st.active_sessions session_id, pd.taskId with
  | some sess, some tid =>
    if tid = "" then ({ st with server_stats := stats1 }, ev)
    else
      let tasks :=
        match dget? sess.tasks tid with
        | some task =>
          dinsert sess.tasks tid { task with lastProgress := some pd, lastUpdate := some now }
        | none => sess.tasks
      let completed := pd.status = some "completed"
      let sess' :=
        { sess with
          tasks := tasks, lastActivity := now,
          metrics :=
            if completed then
              { sess.metrics with completedTasks := sess.metrics.completedTasks + 1 }
            else sess.metrics }
      ({ st with
         active_sessions := dinsert st.active_sessions session_id sess',
         server_stats :=
           if completed then
             { stats1 with tasks_completed := stats1.tasks_completed + 1 }
           else stats1 }, ev)
  | _, _ => ({ st with server_stats := stats1 }, ev)

/-- collaboration_request handler: stores the request under its session,
then either delivers to a named target agent's socket, replies with a
collaboration-error when the target is unknown, or broadcasts to the
session when no target is named. -/
def collaboration_request (st : ServerState) (sid : String) (now : Nat) (rd : RequestData) :
    ServerState × List (Room × Event) :=
  let session_id := rd.sessionId.getD "default"
  let stats1 :=
    { st.server_stats with
      messages_processed := st.server_stats.messages_processed + 1 }
  let sessions1 :=
    match dget? st.active_sessions session_id with
    | some sess =>
      dinsert st.active_sessions session_id
        { sess with
          collaborationRequests :=
            dinsert sess.collaborationRequests rd.requestId
              { data := rd, timestamp := now, status := "pending" } }
    | none => st.active_sessions
  let st1 : ServerState :=
    { st with active_sessions := sessions1, server_stats := stats1 }
  match rd.targetAgent with
  | some target =>
    if target = "" then
      (st1, [(Room.session session_id, Event.collabRequest rd now)])
    else
      let target_socket : Option String :=
        match dget? st.registered_agents target with
        | some agent => agent.socket_id
        | none => none
      if truthy target_socket then
        (st1, [(Room.conn (target_socket.getD ""), Event.collabRequest rd now)])
      else
        (st1, [(Room.conn sid, Event.collabError rd.requestId target now)])
  | none => (st1, [(Room.session session_id, Event.collabRequest rd now)])

/-- One pass of the disconnect cleanup for a single removed agent: walks the
session registry in order, deleting the agent from each session that lists
it and emitting one agent-unregistered event per such session. -/
def remove_agent_sessions (sessions : List (String × Session)) (agent_id : String)
    (now : Nat) : List (String × Session) × List (Room × Event) :=
  match sessions with
  | [] => ([], [])
  | (s, sess) :: rest =>
    let r := remove_agent_sessions rest agent_id now
    if dcontains sess.agents agent_id then
      ((s, { sess with agents := derase sess.agents agent_id }) :: r.1,
       (Room.session s, Event.agentUnregistered s agent_id "disconnection" now) :: r.2)
    else ((s, sess) :: r.1, r.2)

/-- Removes each listed agent from the agent registry and from every
session, in order, collecting the emitted events. -/
def remove_agents (st : ServerState) (agent_ids : List String) (now : Nat) :
    ServerState × List (Room × Event) :=
  match agent_ids with
  | [] => (st, [])
  | aid :: rest =>
    let st1 := { st with registered_agents := derase st.registered_agents aid }
    let r1 := remove_agent_sessions st1.active_sessions aid now
    let st2 := { st1 with active_sessions := r1.1 }
    let r2 := remove_agents st2 rest now
    (r2.1, r1.2 ++ r2.2)

/-- disconnect handler: decrements the connection counter (floored at zero)
and removes every agent owned by the disconnecting socket. -/
def disconnect (st : ServerState) (sid : String) (now : Nat) :
    ServerState × List (Room × Event) :=
  let st0 :=
    { st with server_stats :=
        { st.server_stats with connections := st.server_stats.connections - 1 } }
  let agents_to_remove :=
    (st0.registered_agents.filter (fun p => decide (p.2.socket_id = some sid))).map
      (fun p => p.1)
  remove_agents st0 agents_to_remove now

/-- The derived performance block of the health endpoint, over the
rationals. -/
structure HealthPerformance where
  active_sessions : Nat
  registered_agents : Nat
  messages_per_second : ℚ
  error_rate : ℚ
deriving DecidableEq, Repr

/-- health_check handler: derives uptime, messages-per-second and error
rate on demand with the max(..., 1) denominator floors. -/
def health_check (st : ServerState) (now : Nat) : HealthPerformance :=
  let uptime : ℚ := (now : ℚ) - (st.server_stats.start_time : ℚ)
  { active_sessions := st.active_sessions.length,
    registered_agents := st.registered_agents.length,
    messages_per_second :=
      (st.server_stats.messages_processed : ℚ) / max (uptime / 1000) 1,
    error_rate :=
      (st.server_stats.errors : ℚ) / max ((st.server_stats.messages_processed : ℚ)) 1 * 100 }

/-- Looking up the key just written returns the written value. -/
theorem dget?_dinsert_self {κ α : Type} [DecidableEq κ] (d : List (κ × α)) (k : κ) (v : α) :
    dget? (dinsert d k v) k = some v := by
  induction d with
  | nil => simp [dinsert, dget?]
  | cons p rest ih =>
    obtain ⟨k', v'⟩ := p
    by_cases h : k' = k <;> simp [dinsert, dget?, h, ih]

/-- Writing one key leaves lookups of other keys unchanged. -/
theorem dget?_dinsert_ne {κ α : Type} [DecidableEq κ] (d : List (κ × α)) (k k' : κ) (v : α)
    (h : k' ≠ k) : dget? (dinsert d k v) k' = dget? d k' := by
  have h' : ¬(k = k') := fun hk => h hk.symm
  induction d with
  | nil => simp [dinsert, dget?, h']
  | cons p rest ih =>
    obtain ⟨k'', v''⟩ := p
    by_cases h1 : k'' = k
    · simp [dinsert, dget?, h1, h, h']
    · by_cases h2 : k'' = k' <;> simp [dinsert, dget?, h1, h2, h, h', ih]

/-- Deleting a key removes it. -/
theorem dget?_derase_self {κ α : Type} [DecidableEq κ] (d : List (κ × α)) (k : κ) :
    dget? (derase d k) k = none := by
  induction d with
  | nil => rfl
  | cons p rest ih =>
    obtain ⟨k', v'⟩ := p
    by_cases h : k' = k <;> simp [derase, dget?, h, ih]

/-- Deleting one key leaves lookups of other keys unchanged. -/
theorem dget?_derase_ne {κ α : Type} [DecidableEq κ] (d : List (κ × α)) (k k' : κ)
    (h : k' ≠ k) : dget? (derase d k) k' = dget? d k' := by
  have h' : ¬(k = k') := fun hk => h hk.symm
  induction d with
  | nil => rfl
  | cons p rest ih =>
    obtain ⟨k'', v''⟩ := p
    by_cases h1 : k'' = k
    · simp [derase, dget?, h1, h, h', ih]
    · by_cases h2 : k'' = k' <;> simp [derase, dget?, h1, h2, h, h', ih]

/-- A key absent before a deletion is still absent after it. -/
theorem dget?_derase_none {κ α : Type} [DecidableEq κ] (d : List (κ × α)) (k k' : κ)
    (h : dget? d k' = none) : dget? (derase d k) k' = none := by
  by_cases hk : k' = k
  · subst hk; exact dget?_derase_self d k'
  · rw [dget?_derase_ne d k k' hk]; exact h

/-- Membership agrees with lookup success. -/
theorem dcontains_eq_isSome {κ α : Type} [DecidableEq κ] (d : List (κ × α)) (k : κ) :
    dcontains d k = (dget? d k).isSome := by
  induction d with
  | nil => rfl
  | cons p rest ih =>
    obtain ⟨k', v'⟩ := p
    by_cases h : k' = k <;> simp [dcontains, dget?, h, ih]

/-- Deleting one key does not change membership of another. -/
theorem dcontains_derase_ne {κ α : Type} [DecidableEq κ] (d : List (κ × α)) (k k' : κ)
    (h : k' ≠ k) : dcontains (derase d k) k' = dcontains d k' := by
  rw [dcontains_eq_isSome, dcontains_eq_isSome, dget?_derase_ne d k k' h]

/-- A failed lookup means no entry carries the key. -/
theorem dget?_none_countP {κ α : Type} [DecidableEq κ] (d : List (κ × α)) (k : κ)
    (h : dget? d k = none) : d.countP (fun p => decide (p.1 = k)) = 0 := by
  induction d with
  | nil => rfl
  | cons p rest ih =>
    obtain ⟨k', v'⟩ := p
    by_cases h1 : k' = k
    · simp [dget?, h1] at h
    · simp [dget?, h1] at h
      simp [List.countP_cons, h1, ih h]

/-- Updating a present key does not change how many entries carry it. -/
theorem countP_dinsert_present {κ α : Type} [DecidableEq κ] (d : List (κ × α)) (k : κ) (v : α)
    (h : dcontains d k = true) :
    (dinsert d k v).countP (fun p => decide (p.1 = k))
      = d.countP (fun p => decide (p.1 = k)) := by
  induction d with
  | nil => simp [dcontains] at h
  | cons p rest ih =>
    obtain ⟨k', v'⟩ := p
    by_cases h1 : k' = k
    · simp [dinsert, h1, List.countP_cons]
    · simp [dcontains, h1] at h
      simp [dinsert, h1, List.countP_cons, ih h]

/-- Inserting an absent key adds exactly one entry carrying it. -/
theorem countP_dinsert_absent {κ α : Type} [DecidableEq κ] (d : List (κ × α)) (k : κ) (v : α)
    (h : dcontains d k = false) :
    (dinsert d k v).countP (fun p => decide (p.1 = k))
      = d.countP (fun p => decide (p.1 = k)) + 1 := by
  induction d with
  | nil => simp [dinsert, List.countP_cons]
  | cons p rest ih =>
    obtain ⟨k', v'⟩ := p
    by_cases h1 : k' = k
    · simp [dcontains, h1] at h
    · simp [dcontains, h1] at h
      simp [dinsert, h1, List.countP_cons, ih h]

/-- The body of the matcher's loop appends the agent exactly when all four
filters pass. -/
theorem matcherStep_eq (td : TaskDefinition) (suitable : List Agent) (aid : String)
    (a : Agent) :
    matcherStep td suitable (aid, a)
      = if agentSuitable td a then suitable ++ [a] else suitable := by
  simp only [matcherStep, agentSuitable]
  by_cases h1 : typeAllowed td a <;>
    by_cases h2 : capsCovered td a <;>
      by_cases h3 : a.status = some "idle" <;>
        by_cases h4 : a.currentTasksD < a.maxTasksD <;>
          simp [h1, h2, h3, h4]

/-- The matcher's loop is a filter of the agent list followed by projecting
the records, preserving insertion order. -/
theorem find_suitable_foldl (td : TaskDefinition) (agents : List (String × Agent))
    (acc : List Agent) :
    agents.foldl (matcherStep td) acc
      = acc ++ (agents.filter (fun p => agentSuitable td p.2)).map (fun p => p.2) := by
  induction agents generalizing acc with
  | nil => simp
  | cons p rest ih =>
    obtain ⟨aid, a⟩ := p
    rw [List.foldl_cons, matcherStep_eq]
    by_cases h : agentSuitable td a
    · rw [if_pos h, ih]
      simp [List.filter_cons, h]
    · rw [if_neg h, ih]
      simp [List.filter_cons, h]

/-- find_suitable_agents on an existing session equals the in-order filter
of that session's agents. -/
theorem find_suitable_agents_eq_filter (td : TaskDefinition) (sid : String)
    (sessions : List (String × Session)) (sess : Session)
    (hs : dget? sessions sid = some sess) :
    find_suitable_agents td sid sessions
      = (sess.agents.filter (fun p => agentSuitable td p.2)).map (fun p => p.2) := by
  unfold find_suitable_agents
  rw [hs]
  simpa using find_suitable_foldl td sess.agents []

/-- The matcher only reads the agents of the addressed session. -/
theorem find_suitable_agents_congr (td : TaskDefinition) (sid : String)
    (sessions sessions' : List (String × Session))
    (h : (dget? sessions' sid).map (fun s => s.agents)
          = (dget? sessions sid).map (fun s => s.agents)) :
    find_suitable_agents td sid sessions' = find_suitable_agents td sid sessions := by
  unfold find_suitable_agents
  cases h1 : dget? sessions' sid with
  | none =>
    cases h2 : dget? sessions sid with
    | none => rfl
    | some s => rw [h1, h2] at h; simp at h
  | some s' =>
    cases h2 : dget? sessions sid with
    | none => rw [h1, h2] at h; simp at h
    | some s =>
      rw [h1, h2] at h
      simp only [Option.map_some'] at h
      injection h with h
      show s'.agents.foldl (matcherStep td) [] = s.agents.foldl (matcherStep td) []
      rw [h]

/-- C1: For every task and session, an agent registered in the session whose
capability set includes every required capability and whose type passes the
task's agent-type allow-list (or that list is empty) appears in
find_suitable_agents exactly when its status is idle and its current task
count is strictly below its concurrency limit; the result lists the passing
agents in the session's insertion order with no further ranking. -/
theorem find_suitable_agents_spec (td : TaskDefinition) (sid : String)
    (sessions : List (String × Session)) (sess : Session)
    (hs : dget? sessions sid = some sess) (aid : String) (a : Agent)
    (hmem : (aid, a) ∈ sess.agents)
    (htype : typeAllowed td a = true) (hcaps : capsCovered td a = true) :
    (a ∈ find_suitable_agents td sid sessions ↔
      (a.status = some "idle" ∧ a.currentTasksD < a.maxTasksD)) ∧
    find_suitable_agents td sid sessions
      = (sess.agents.filter (fun p => agentSuitable td p.2)).map (fun p => p.2) := by
  have hf := find_suitable_agents_eq_filter td sid sessions sess hs
  refine ⟨?_, hf⟩
  rw [hf]
  constructor
  · intro hmem'
    rcases List.mem_map.mp hmem' with ⟨p, hp, hpa⟩
    have hsuit : agentSuitable td p.2 = true := (List.mem_filter.mp hp).2
    rw [hpa] at hsuit
    simp only [agentSuitable, Bool.and_eq_true, decide_eq_true_eq] at hsuit
    exact ⟨hsuit.1.2, hsuit.2⟩
  · intro hcond
    apply List.mem_map.mpr
    refine ⟨(aid, a), List.mem_filter.mpr ⟨hmem, ?_⟩, rfl⟩
    simp only [agentSuitable, Bool.and_eq_true, decide_eq_true_eq]
    exact ⟨⟨⟨htype, hcaps⟩, hcond.1⟩, hcond.2⟩

/-- Example idle nlp agent owned by connection c1. -/
def exAgentA1 : Agent :=
  { id := "a1", type := some "nlp-worker", capabilities := some ["nlp"],
    status := some "idle", socket_id := some "c1",
    metadata := some { currentTasks := some 0, maxConcurrentTasks := some 1 } }

/-- Example session holding exAgentA1. -/
def exSessionS1 : Session :=
  { sessionId := "s1", createdAt := 1, lastActivity := 1, status := "active",
    agents := [("a1", exAgentA1)], tasks := [], collaborationRequests := [],
    metrics := { totalTasks := 0, completedTasks := 0, errorCount := 0,
                 avgExecutionTime := 0 } }

/-- Example task requiring the nlp capability. -/
def exTd : TaskDefinition :=
  { id := some "t1", sessionId := some "s1",
    requirements := some { capabilities := some ["nlp"], agentTypes := none },
    collaborationMode := none }

/-- Empty server state. -/
def emptyState : ServerState :=
  { active_sessions := [], registered_agents := [],
    server_stats := initial_server_stats 0 }

theorem find_suitable_agents_spec_witness :
    exAgentA1 ∈ find_suitable_agents exTd "s1" [("s1", exSessionS1)] :=
  (find_suitable_agents_spec exTd "s1" [("s1", exSessionS1)] exSessionS1 (by decide)
    "a1" exAgentA1 (by decide) (by decide) (by decide)).1.mpr (by decide)

/-- C9: The derived statistics never divide by zero: both denominators are
floored at one, messages-per-second and error rate are computed by the
claimed formulas, and with zero messages processed the error rate is
exactly zero (the error counter never exceeds the message counter). -/
theorem health_check_floor_spec (st : ServerState) (now : Nat)
    (h : st.server_stats.errors ≤ st.server_stats.messages_processed) :
    (1 : ℚ) ≤ max (((now : ℚ) - (st.server_stats.start_time : ℚ)) / 1000) 1 ∧
    (1 : ℚ) ≤ max ((st.server_stats.messages_processed : ℚ)) 1 ∧
    (health_check st now).messages_per_second
      = (st.server_stats.messages_processed : ℚ)
          / max (((now : ℚ) - (st.server_stats.start_time : ℚ)) / 1000) 1 ∧
    (health_check st now).error_rate
      = (st.server_stats.errors : ℚ)
          / max ((st.server_stats.messages_processed : ℚ)) 1 * 100 ∧
    (st.server_stats.messages_processed = 0 → (health_check st now).error_rate = 0) := by
  refine ⟨le_max_right _ _, le_max_right _ _, rfl, rfl, ?_⟩
  intro h0
  have he : st.server_stats.errors = 0 := Nat.le_zero.mp (h0 ▸ h)
  simp [health_check, he]

theorem health_check_floor_spec_witness :
    (health_check emptyState 0).error_rate = 0 :=
  (health_check_floor_spec emptyState 0 (by decide)).2.2.2.2 (by decide)

/-- Joining an existing session only refreshes its lastActivity. -/
theorem join_session_existing (st : ServerState) (sid : String) (now : Nat)
    (s : String) (sess : Session) (hs : s ≠ "")
    (h0 : dget? st.active_sessions s = some sess) :
    (join_session st sid now { sessionId := some s }).1.active_sessions
      = dinsert st.active_sessions s { sess with lastActivity := now } := by
  have hc : dcontains st.active_sessions s = true := by
    rw [dcontains_eq_isSome, h0]; rfl
  simp [join_session, hs, hc, h0]

/-- Joining an absent session creates it with the default structure and
stamps lastActivity. -/
theorem join_session_new (st : ServerState) (sid : String) (now : Nat)
    (s : String) (hs : s ≠ "") (h0 : dget? st.active_sessions s = none) :
    (join_session st sid now { sessionId := some s }).1.active_sessions
      = dinsert (dinsert st.active_sessions s (default_session s now)) s
          { default_session s now with lastActivity := now } := by
  have hc : dcontains st.active_sessions s = false := by
    rw [dcontains_eq_isSome, h0]; rfl
  simp [join_session, hs, hc, dget?_dinsert_self]

/-- C8: Joining the same non-empty session id twice creates the session
record only once: the second call leaves exactly one record under that id,
createdAt is unchanged from the first call, and lastActivity carries the
time of the latest call. -/
theorem join_session_idempotent_spec (st : ServerState) (sid : String)
    (now1 now2 : Nat) (s : String) (hs : s ≠ "")
    (h0 : dget? st.active_sessions s = none) :
    ((join_session (join_session st sid now1 { sessionId := some s }).1 sid now2
        { sessionId := some s }).1.active_sessions.countP
          (fun p => decide (p.1 = s)) = 1) ∧
    ∃ sess1 sess2,
      dget? (join_session st sid now1 { sessionId := some s }).1.active_sessions s
        = some sess1 ∧
      dget? (join_session (join_session st sid now1 { sessionId := some s }).1 sid now2
          { sessionId := some s }).1.active_sessions s = some sess2 ∧
      sess2.createdAt = sess1.createdAt ∧
      sess1.lastActivity = now1 ∧ sess2.lastActivity = now2 := by
  have h1 := join_session_new st sid now1 s hs h0
  have hg1 : dget? (join_session st sid now1 { sessionId := some s }).1.active_sessions s
      = some { default_session s now1 with lastActivity := now1 } := by
    rw [h1]; exact dget?_dinsert_self _ _ _
  have h2 := join_session_existing (join_session st sid now1 { sessionId := some s }).1
    sid now2 s { default_session s now1 with lastActivity := now1 } hs hg1
  have hg2 : dget? (join_session (join_session st sid now1 { sessionId := some s }).1 sid
      now2 { sessionId := some s }).1.active_sessions s
      = some { { default_session s now1 with lastActivity := now1 } with
               lastActivity := now2 } := by
    rw [h2]; exact dget?_dinsert_self _ _ _
  refine ⟨?_, { default_session s now1 with lastActivity := now1 },
    { { default_session s now1 with lastActivity := now1 } with lastActivity := now2 },
    hg1, hg2, rfl, rfl, rfl⟩
  rw [h2]
  rw [countP_dinsert_present _ _ _ (by rw [dcontains_eq_isSome, hg1]; rfl)]
  rw [h1]
  rw [countP_dinsert_present _ _ _
    (by rw [dcontains_eq_isSome, dget?_dinsert_self]; rfl)]
  rw [countP_dinsert_absent _ _ _ (by rw [dcontains_eq_isSome, h0]; rfl)]
  rw [dget?_none_countP _ _ h0]

theorem join_session_idempotent_spec_witness :
    ((join_session (join_session emptyState "c1" 2 { sessionId := some "s1" }).1 "c1" 3
        { sessionId := some "s1" }).1.active_sessions.countP
          (fun p => decide (p.1 = "s1")) = 1) :=
  (join_session_idempotent_spec emptyState "c1" 2 3 "s1" (by decide) (by decide)).1

/-- C6: A collaboration request naming a target agent that is absent from
the global agent registry produces exactly one collaboration-error event
naming the missing target, delivered to the requesting connection only,
with no broadcast to the session. -/
theorem collaboration_request_missing_target_spec (st : ServerState) (sid : String)
    (now : Nat) (rd : RequestData) (target : String)
    (ht : rd.targetAgent = some target) (hne : target ≠ "")
    (hmissing : dget? st.registered_agents target = none) :
    (collaboration_request st sid now rd).2
      = [(Room.conn sid, Event.collabError rd.requestId target now)] := by
  simp [collaboration_request, ht, hne, hmissing, truthy]

/-- Example request addressed to the unregistered agent zz. -/
def exRdMissing : RequestData :=
  { sessionId := some "s1", requestId := some "r1", targetAgent := some "zz" }

/-- Example state with one registered agent and one session. -/
def exStateOneAgent : ServerState :=
  { active_sessions := [("s1", exSessionS1)], registered_agents := [("a1", exAgentA1)],
    server_stats := initial_server_stats 0 }

theorem collaboration_request_missing_target_spec_witness :
    (collaboration_request exStateOneAgent "c9" 4 exRdMissing).2
      = [(Room.conn "c9", Event.collabError (some "r1") "zz" 4)] :=
  collaboration_request_missing_target_spec exStateOneAgent "c9" 4 exRdMissing "zz"
    (by decide) (by decide) (by decide)

/-- For a valid task id, every event emitted by start_task is addressed to
the task's session room. -/
theorem start_task_events_room (st : ServerState) (sid : String) (now : Nat)
    (td : TaskDefinition) (tid : String) (hid : td.id = some tid) (hne : tid ≠ "") :
    ∀ e ∈ (start_task st sid now td).2, e.1 = Room.session (td.sessionId.getD "default") := by
  simp only [start_task, hid]
  rw [if_neg hne]
  cases hdg : dget? st.active_sessions (td.sessionId.getD "default") with
  | none =>
    dsimp only
    cases hfm : find_suitable_agents td (td.sessionId.getD "default") st.active_sessions with
    | nil =>
      intro e he
      simp at he
      rw [he]
    | cons a l =>
      by_cases hp : td.collaborationMode.getD "sequential" = "parallel" <;>
        intro e he <;> simp [hp] at he
      · rcases he with rfl | ⟨x, hx, rfl⟩ <;> rfl
      · rw [he]
  | some sess =>
    dsimp only
    cases hfm : find_suitable_agents td (td.sessionId.getD "default")
        (dinsert st.active_sessions (td.sessionId.getD "default")
          { sess with
            tasks := dinsert sess.tasks tid
              { definition := td, startTime := now, status := "started",
                lastProgress := none, lastUpdate := none },
            metrics := { sess.metrics with totalTasks := sess.metrics.totalTasks + 1 },
            lastActivity := now }) with
    | nil =>
      intro e he
      simp at he
      rw [he]
    | cons a l =>
      by_cases hp : td.collaborationMode.getD "sequential" = "parallel" <;>
        intro e he <;> simp [hp] at he
      · rcases he with rfl | ⟨x, hx, rfl⟩ <;> rfl
      · rw [he]

/-- For a valid task id, start_task leaves every session other than the
task's session untouched. -/
theorem start_task_frame (st : ServerState) (sid : String) (now : Nat)
    (td : TaskDefinition) (tid : String) (hid : td.id = some tid) (hne : tid ≠ "")
    (s : String) (hss : s ≠ td.sessionId.getD "default") :
    dget? (start_task st sid now td).1.active_sessions s = dget? st.active_sessions s := by
  simp only [start_task, hid]
  rw [if_neg hne]
  cases hdg : dget? st.active_sessions (td.sessionId.getD "default") with
  | none =>
    dsimp only
    cases hfm : find_suitable_agents td (td.sessionId.getD "default") st.active_sessions with
    | nil => rfl
    | cons a l =>
      by_cases hp : td.collaborationMode.getD "sequential" = "parallel" <;> simp [hp]
  | some sess =>
    dsimp only
    cases hfm : find_suitable_agents td (td.sessionId.getD "default")
        (dinsert st.active_sessions (td.sessionId.getD "default")
          { sess with
            tasks := dinsert sess.tasks tid
              { definition := td, startTime := now, status := "started",
                lastProgress := none, lastUpdate := none },
            metrics := { sess.metrics with totalTasks := sess.metrics.totalTasks + 1 },
            lastActivity := now }) with
    | nil => exact dget?_dinsert_ne _ _ _ _ hss
    | cons a l =>
      by_cases hp : td.collaborationMode.getD "sequential" = "parallel" <;>
        simp [hp, dget?_dinsert_ne _ _ _ _ hss]

/-- C3 counterexample input: task addressed to the absent session s9. -/
def exTdC3 : TaskDefinition :=
  { id := some "t1", sessionId := some "s9", requirements := none,
    collaborationMode := none }

/-- C3 counterexample: starting a task whose sessionId names no existing
session does not create the session, refuting the claimed lazy creation. -/
theorem start_task_missing_session_counterexample :
    dget? (start_task emptyState "c1" 3 exTdC3).1.active_sessions "s9" = none := by
  decide

/-- C3 (amended): starting a task with a valid id but a sessionId naming no
existing session creates nothing and records nothing: the session and agent
registries are unchanged, one task-error event reporting zero available
agents is emitted to that session room, and only the server message and
error counters increment. -/
theorem start_task_missing_session_spec (st : ServerState) (sid : String) (now : Nat)
    (td : TaskDefinition) (tid : String)
    (hid : td.id = some tid) (hne : tid ≠ "")
    (hs : dget? st.active_sessions (td.sessionId.getD "default") = none) :
    (start_task st sid now td).1.active_sessions = st.active_sessions ∧
    (start_task st sid now td).1.registered_agents = st.registered_agents ∧
    (start_task st sid now td).2
      = [(Room.session (td.sessionId.getD "default"),
          Event.taskError tid "No suitable agents found for task" td.requirements 0 now)] ∧
    (start_task st sid now td).1.server_stats
      = { st.server_stats with
          messages_processed := st.server_stats.messages_processed + 1,
          errors := st.server_stats.errors + 1 } := by
  have hm : find_suitable_agents td (td.sessionId.getD "default") st.active_sessions
      = [] := by
    unfold find_suitable_agents; rw [hs]
  refine ⟨?_, ?_, ?_, ?_⟩ <;> simp [start_task, hid, hne, hs, hm]

theorem start_task_missing_session_spec_witness :
    (start_task emptyState "c1" 3 exTdC3).1.active_sessions = emptyState.active_sessions :=
  (start_task_missing_session_spec emptyState "c1" 3 exTdC3 "t1" (by decide) (by decide)
    (by decide)).1

/-- C2 counterexample input: a state holding the agentless session s1. -/
def exStateC2 : ServerState :=
  { active_sessions := [("s1", default_session "s1" 1)], registered_agents := [],
    server_stats := initial_server_stats 0 }

/-- C2 counterexample task addressed to session s1. -/
def exTdC2 : TaskDefinition :=
  { id := some "t1", sessionId := some "s1", requirements := none,
    collaborationMode := none }

/-- C2 counterexample: when the matcher finds no agents the stored task
keeps status started; it is not transitioned to error as claimed. -/
theorem start_task_no_agents_counterexample :
    ((dget? (start_task exStateC2 "c1" 5 exTdC2).1.active_sessions "s1").bind
        (fun sess => dget? sess.tasks "t1")).map (fun t => t.status) = some "started" ∧
    some "started" ≠ some "error" := by
  exact ⟨by decide, by decide⟩

/-- C2 (amended): starting a task with a valid id on an existing session for
which the matcher returns no suitable agents emits exactly one task-error
event (task id, requirements, session agent count) and no task-assigned
event, increments the server error and message counters and the session's
totalTasks, refreshes lastActivity, and leaves the stored task with status
started (it is not transitioned to error). -/
theorem start_task_no_agents_spec (st : ServerState) (sid : String) (now : Nat)
    (td : TaskDefinition) (tid : String) (sess : Session)
    (hid : td.id = some tid) (hne : tid ≠ "")
    (hs : dget? st.active_sessions (td.sessionId.getD "default") = some sess)
    (hm : find_suitable_agents td (td.sessionId.getD "default") st.active_sessions = []) :
    (start_task st sid now td).2
      = [(Room.session (td.sessionId.getD "default"),
          Event.taskError tid "No suitable agents found for task" td.requirements
            sess.agents.length now)] ∧
    (start_task st sid now td).1.server_stats.errors = st.server_stats.errors + 1 ∧
    (start_task st sid now td).1.server_stats.messages_processed
      = st.server_stats.messages_processed + 1 ∧
    ∃ sess',
      dget? (start_task st sid now td).1.active_sessions (td.sessionId.getD "default")
        = some sess' ∧
      sess'.metrics.totalTasks = sess.metrics.totalTasks + 1 ∧
      sess'.lastActivity = now ∧
      dget? sess'.tasks tid
        = some { definition := td, startTime := now, status := "started",
                 lastProgress := none, lastUpdate := none } := by
  have hm1 : find_suitable_agents td (td.sessionId.getD "default")
      (dinsert st.active_sessions (td.sessionId.getD "default")
        { sess with
          tasks := dinsert sess.tasks tid
            { definition := td, startTime := now, status := "started",
              lastProgress := none, lastUpdate := none },
          metrics := { sess.metrics with totalTasks := sess.metrics.totalTasks + 1 },
          lastActivity := now }) = [] := by
    rw [find_suitable_agents_congr td (td.sessionId.getD "default") st.active_sessions _
      (by rw [dget?_dinsert_self, hs]; rfl)]
    exact hm
  refine ⟨?_, ?_, ?_, ?_⟩
  · simp [start_task, hid, hne, hs, hm1, dget?_dinsert_self]
  · simp [start_task, hid, hne, hs, hm1]
  · simp [start_task, hid, hne, hs, hm1]
  · refine ⟨{ sess with
      tasks := dinsert sess.tasks tid
        { definition := td, startTime := now, status := "started",
          lastProgress := none, lastUpdate := none },
      metrics := { sess.metrics with totalTasks := sess.metrics.totalTasks + 1 },
      lastActivity := now }, ?_, rfl, rfl, dget?_dinsert_self _ _ _⟩
    simp [start_task, hid, hne, hs, hm1, dget?_dinsert_self]

theorem start_task_no_agents_spec_witness :
    (start_task exStateC2 "c1" 5 exTdC2).2
      = [(Room.session "s1",
          Event.taskError "t1" "No suitable agents found for task" none 0 5)] :=
  (start_task_no_agents_spec exStateC2 "c1" 5 exTdC2 "t1" (default_session "s1" 1)
    (by decide) (by decide) (by decide) (by decide)).1

/-- C5: When the collaboration mode is sequential or unspecified and the
matcher result is non-empty, start_task emits exactly one task-assigned
event, naming the first agent of the matcher's result order. -/
theorem start_task_sequential_spec (st : ServerState) (sid : String) (now : Nat)
    (td : TaskDefinition) (tid : String) (a : Agent) (l : List Agent)
    (hid : td.id = some tid) (hne : tid ≠ "")
    (hmode : td.collaborationMode = none ∨ td.collaborationMode = some "sequential")
    (hm : find_suitable_agents td (td.sessionId.getD "default") st.active_sessions
      = a :: l) :
    (start_task st sid now td).2
      = [(Room.session (td.sessionId.getD "default"),
          Event.taskAssigned tid a.id "sequential" td now)] := by
  have hmode' : td.collaborationMode.getD "sequential" = "sequential" := by
    rcases hmode with h | h <;> simp [h]
  cases hs : dget? st.active_sessions (td.sessionId.getD "default") with
  | none =>
    have hnil : find_suitable_agents td (td.sessionId.getD "default") st.active_sessions
        = [] := by
      unfold find_suitable_agents; rw [hs]
    rw [hnil] at hm
    cases hm
  | some sess =>
    have hm1 : find_suitable_agents td (td.sessionId.getD "default")
        (dinsert st.active_sessions (td.sessionId.getD "default")
          { sess with
            tasks := dinsert sess.tasks tid
              { definition := td, startTime := now, status := "started",
                lastProgress := none, lastUpdate := none },
            metrics := { sess.metrics with totalTasks := sess.metrics.totalTasks + 1 },
            lastActivity := now }) = a :: l := by
      rw [find_suitable_agents_congr td (td.sessionId.getD "default") st.active_sessions _
        (by rw [dget?_dinsert_self, hs]; rfl)]
      exact hm
    simp [start_task, hid, hne, hs, hm1, hmode']

theorem start_task_sequential_spec_witness :
    (start_task exStateOneAgent "c1" 6 exTd).2
      = [(Room.session "s1", Event.taskAssigned "t1" "a1" "sequential" exTd 6)] :=
  start_task_sequential_spec exStateOneAgent "c1" 6 exTd "t1" exAgentA1 []
    (by decide) (by decide) (Or.inl (by decide)) (by decide)

/-- agent_progress always broadcasts exactly one enriched task-progress
event to the addressed session room. -/
theorem agent_progress_events (st : ServerState) (sid : String) (now : Nat)
    (pd : ProgressData) :
    (agent_progress st sid now pd).2
      = [(Room.session (pd.sessionId.getD "default"),
          Event.taskProgress (pd.sessionId.getD "default") pd now)] := by
  simp only [agent_progress]
  cases hdg : dget? st.active_sessions (pd.sessionId.getD "default") with
  | none => cases pd.taskId <;> rfl
  | some sess =>
    cases pd.taskId with
    | none => rfl
    | some tid => by_cases htid : tid = "" <;> simp [htid]

/-- agent_progress leaves every session other than the addressed one
untouched. -/
theorem agent_progress_frame (st : ServerState) (sid : String) (now : Nat)
    (pd : ProgressData) (s : String) (hss : s ≠ pd.sessionId.getD "default") :
    dget? (agent_progress st sid now pd).1.active_sessions s
      = dget? st.active_sessions s := by
  simp only [agent_progress]
  cases hdg : dget? st.active_sessions (pd.sessionId.getD "default") with
  | none => cases pd.taskId <;> rfl
  | some sess =>
    cases pd.taskId with
    | none => rfl
    | some tid =>
      by_cases htid : tid = "" <;> simp [htid, dget?_dinsert_ne _ _ _ _ hss]

/-- C4 counterexample state: session s1 whose lastActivity is 5 and which
stores no tasks. -/
def exStateC4 : ServerState :=
  { active_sessions := [("s1", default_session "s1" 5)], registered_agents := [],
    server_stats := initial_server_stats 0 }

/-- C4 counterexample payload: progress for the unknown task t9. -/
def exPdC4 : ProgressData :=
  { sessionId := some "s1", taskId := some "t9", status := none }

/-- C4 counterexample: a progress report naming no stored task still
refreshes the existing session's lastActivity, refuting the claim that no
session state is modified. -/
theorem agent_progress_unknown_task_counterexample :
    (dget? (agent_progress exStateC4 "c1" 10 exPdC4).1.active_sessions "s1").map
        (fun sess => sess.lastActivity) = some 10 ∧
    (dget? exStateC4.active_sessions "s1").map (fun sess => sess.lastActivity)
      = some 5 := by
  exact ⟨by decide, by decide⟩

/-- C4 (amended): for a progress report whose session and task ids name no
stored task, the enriched task-progress event is still broadcast to the
session and no task record is created or modified; however, when the
addressed session exists and a non-empty taskId is present, that session's
lastActivity is refreshed and, if the update's status is completed, its
completedTasks counter increments; otherwise no session state changes. -/
theorem agent_progress_unknown_task_spec (st : ServerState) (sid : String) (now : Nat)
    (pd : ProgressData)
    (hnotask : ∀ sess tid,
      dget? st.active_sessions (pd.sessionId.getD "default") = some sess →
      pd.taskId = some tid → tid ≠ "" → dget? sess.tasks tid = none) :
    (agent_progress st sid now pd).2
      = [(Room.session (pd.sessionId.getD "default"),
          Event.taskProgress (pd.sessionId.getD "default") pd now)] ∧
    (agent_progress st sid now pd).1.registered_agents = st.registered_agents ∧
    (∀ s sess', dget? (agent_progress st sid now pd).1.active_sessions s = some sess' →
      ∃ sess0, dget? st.active_sessions s = some sess0 ∧ sess'.tasks = sess0.tasks) ∧
    (agent_progress st sid now pd).1.active_sessions
      = (match dget? st.active_sessions (pd.sessionId.getD "default"), pd.taskId with
         | some sess, some tid =>
           if tid = "" then st.active_sessions
           else
             dinsert st.active_sessions (pd.sessionId.getD "default")
               { sess with
                 lastActivity := now,
                 metrics :=
                   if pd.status = some "completed" then
                     { sess.metrics with
                       completedTasks := sess.metrics.completedTasks + 1 }
                   else sess.metrics }
         | _, _ => st.active_sessions) ∧
    (agent_progress st sid now pd).1.server_stats.messages_processed
      = st.server_stats.messages_processed + 1 ∧
    (agent_progress st sid now pd).1.server_stats
      = (match dget? st.active_sessions (pd.sessionId.getD "default"), pd.taskId with
         | some _, some tid =>
           if tid = "" then
             { st.server_stats with
               messages_processed := st.server_stats.messages_processed + 1 }
           else if pd.status = some "completed" then
             { st.server_stats with
               messages_processed := st.server_stats.messages_processed + 1,
               tasks_completed := st.server_stats.tasks_completed + 1 }
           else
             { st.server_stats with
               messages_processed := st.server_stats.messages_processed + 1 }
         | _, _ =>
           { st.server_stats with
             messages_processed := st.server_stats.messages_processed + 1 }) := by
  have h4 : (agent_progress st sid now pd).1.active_sessions
      = (match dget? st.active_sessions (pd.sessionId.getD "default"), pd.taskId with
         | some sess, some tid =>
           if tid = "" then st.active_sessions
           else
             dinsert st.active_sessions (pd.sessionId.getD "default")
               { sess with
                 lastActivity := now,
                 metrics :=
                   if pd.status = some "completed" then
                     { sess.metrics with
                       completedTasks := sess.metrics.completedTasks + 1 }
                   else sess.metrics }
         | _, _ => st.active_sessions) := by
    simp only [agent_progress]
    cases hdg : dget? st.active_sessions (pd.sessionId.getD "default") with
    | none => cases pd.taskId <;> rfl
    | some sess =>
      cases hT : pd.taskId with
      | none => rfl
      | some tid =>
        by_cases htid : tid = ""
        · simp [htid]
        · have htask := hnotask sess tid hdg hT htid
          simp [htid, htask]
  have h2 : (agent_progress st sid now pd).1.registered_agents
      = st.registered_agents := by
    simp only [agent_progress]
    cases hdg : dget? st.active_sessions (pd.sessionId.getD "default") with
    | none => cases pd.taskId <;> rfl
    | some sess =>
      cases pd.taskId with
      | none => rfl
      | some tid => by_cases htid : tid = "" <;> simp [htid]
  have h5 : (agent_progress st sid now pd).1.server_stats
      = (match dget? st.active_sessions (pd.sessionId.getD "default"), pd.taskId with
         | some _, some tid =>
           if tid = "" then
             { st.server_stats with
               messages_processed := st.server_stats.messages_processed + 1 }
           else if pd.status = some "completed" then
             { st.server_stats with
               messages_processed := st.server_stats.messages_processed + 1,
               tasks_completed := st.server_stats.tasks_completed + 1 }
           else
             { st.server_stats with
               messages_processed := st.server_stats.messages_processed + 1 }
         | _, _ =>
           { st.server_stats with
             messages_processed := st.server_stats.messages_processed + 1 }) := by
    simp only [agent_progress]
    cases hdg : dget? st.active_sessions (pd.sessionId.getD "default") with
    | none => cases pd.taskId <;> rfl
    | some sess =>
      cases hT : pd.taskId with
      | none => rfl
      | some tid =>
        by_cases htid : tid = ""
        · simp [htid]
        · by_cases hcomp : pd.status = some "completed" <;> simp [htid, hcomp]
  have h6 : (agent_progress st sid now pd).1.server_stats.messages_processed
      = st.server_stats.messages_processed + 1 := by
    rw [h5]
    cases hdg : dget? st.active_sessions (pd.sessionId.getD "default") with
    | none => cases pd.taskId <;> rfl
    | some sess =>
      cases pd.taskId with
      | none => rfl
      | some tid =>
        by_cases htid : tid = ""
        · simp [htid]
        · by_cases hcomp : pd.status = some "completed" <;> simp [htid, hcomp]
  refine ⟨agent_progress_events st sid now pd, h2, ?_, h4, h6, h5⟩
  intro s sess' hg
  rw [h4] at hg
  cases hdg : dget? st.active_sessions (pd.sessionId.getD "default") with
  | none =>
    rw [hdg] at hg
    cases hT : pd.taskId <;> rw [hT] at hg <;> dsimp only at hg <;>
      exact ⟨sess', hg, rfl⟩
  | some sess =>
    rw [hdg] at hg
    cases hT : pd.taskId with
    | none =>
      rw [hT] at hg
      dsimp only at hg
      exact ⟨sess', hg, rfl⟩
    | some tid =>
      rw [hT] at hg
      dsimp only at hg
      by_cases htid : tid = ""
      · rw [if_pos htid] at hg
        exact ⟨sess', hg, rfl⟩
      · rw [if_neg htid] at hg
        by_cases hseq : s = pd.sessionId.getD "default"
        · subst hseq
          rw [dget?_dinsert_self] at hg
          refine ⟨sess, hdg, ?_⟩
          rw [← Option.some.inj hg]
        · rw [dget?_dinsert_ne _ _ _ _ hseq] at hg
          exact ⟨sess', hg, rfl⟩

theorem agent_progress_unknown_task_spec_witness :
    (agent_progress exStateC4 "c1" 10 exPdC4).2
      = [(Room.session "s1", Event.taskProgress "s1" exPdC4 10)] :=
  (agent_progress_unknown_task_spec exStateC4 "c1" 10 exPdC4
    (fun sess tid hdg ht htid => by
      have h : default_session "s1" 5 = sess := Option.some.inj hdg
      rw [← h]
      rfl)).1

/-- collaboration_request's resulting state: the request is stored under the
addressed session when it exists and the message counter increments; the
agent registry is untouched. -/
theorem collaboration_request_state (st : ServerState) (sid : String) (now : Nat)
    (rd : RequestData) :
    (collaboration_request st sid now rd).1
      = { st with
          active_sessions :=
            match dget? st.active_sessions (rd.sessionId.getD "default") with
            | some sess =>
              dinsert st.active_sessions (rd.sessionId.getD "default")
                { sess with
                  collaborationRequests :=
                    dinsert sess.collaborationRequests rd.requestId
                      { data := rd, timestamp := now, status := "pending" } }
            | none => st.active_sessions,
          server_stats :=
            { st.server_stats with
              messages_processed := st.server_stats.messages_processed + 1 } } := by
  simp only [collaboration_request]
  split
  · split
    · rfl
    · split <;> rfl
  · rfl

/-- collaboration_request leaves every session other than the addressed one
untouched. -/
theorem collaboration_request_frame (st : ServerState) (sid : String) (now : Nat)
    (rd : RequestData) (s : String) (hss : s ≠ rd.sessionId.getD "default") :
    dget? (collaboration_request st sid now rd).1.active_sessions s
      = dget? st.active_sessions s := by
  rw [collaboration_request_state]
  cases hdg : dget? st.active_sessions (rd.sessionId.getD "default") with
  | none => rfl
  | some sess => exact dget?_dinsert_ne _ _ _ _ hss

/-- A collaboration request without a target agent is broadcast once to the
addressed session room. -/
theorem collaboration_request_no_target_events (st : ServerState) (sid : String)
    (now : Nat) (rd : RequestData) (h6 : rd.targetAgent = none) :
    (collaboration_request st sid now rd).2
      = [(Room.session (rd.sessionId.getD "default"), Event.collabRequest rd now)] := by
  simp only [collaboration_request, h6]

/-- C10 (implicit): a start-task, agent-progress or collaboration-request
payload without a sessionId is not rejected; the literal session id default
is substituted, so every emitted event targets the default session room and
no session other than default is touched. -/
theorem default_session_fallback_spec (st : ServerState) (sid : String) (now : Nat)
    (td : TaskDefinition) (pd : ProgressData) (rd : RequestData) (tid : String)
    (h1 : td.sessionId = none) (h2 : td.id = some tid) (h3 : tid ≠ "")
    (h4 : pd.sessionId = none) (h5 : rd.sessionId = none) (h6 : rd.targetAgent = none) :
    (∀ e ∈ (start_task st sid now td).2, e.1 = Room.session "default") ∧
    (∀ s, s ≠ "default" →
      dget? (start_task st sid now td).1.active_sessions s
        = dget? st.active_sessions s) ∧
    (agent_progress st sid now pd).2
      = [(Room.session "default", Event.taskProgress "default" pd now)] ∧
    (∀ s, s ≠ "default" →
      dget? (agent_progress st sid now pd).1.active_sessions s
        = dget? st.active_sessions s) ∧
    (collaboration_request st sid now rd).2
      = [(Room.session "default", Event.collabRequest rd now)] ∧
    (∀ s, s ≠ "default" →
      dget? (collaboration_request st sid now rd).1.active_sessions s
        = dget? st.active_sessions s) := by
  have hd1 : td.sessionId.getD "default" = "default" := by rw [h1]; rfl
  have hd2 : pd.sessionId.getD "default" = "default" := by rw [h4]; rfl
  have hd3 : rd.sessionId.getD "default" = "default" := by rw [h5]; rfl
  refine ⟨?_, ?_, ?_, ?_, ?_, ?_⟩
  · intro e he
    rw [← hd1]
    exact start_task_events_room st sid now td tid h2 h3 e he
  · intro s hss
    exact start_task_frame st sid now td tid h2 h3 s (by rw [hd1]; exact hss)
  · rw [agent_progress_events st sid now pd, hd2]
  · intro s hss
    exact agent_progress_frame st sid now pd s (by rw [hd2]; exact hss)
  · rw [collaboration_request_no_target_events st sid now rd h6, hd3]
  · intro s hss
    exact collaboration_request_frame st sid now rd s (by rw [hd3]; exact hss)

/-- C10 witness inputs: the three payload kinds, each without a sessionId. -/
def exTdNoSession : TaskDefinition :=
  { id := some "t1", sessionId := none, requirements := none, collaborationMode := none }

def exPdNoSession : ProgressData :=
  { sessionId := none, taskId := some "t1", status := none }

def exRdNoSession : RequestData :=
  { sessionId := none, requestId := some "r1", targetAgent := none }

theorem default_session_fallback_spec_witness :
    (agent_progress emptyState "c1" 7 exPdNoSession).2
      = [(Room.session "default", Event.taskProgress "default" exPdNoSession 7)] :=
  (default_session_fallback_spec emptyState "c1" 7 exTdNoSession exPdNoSession
    exRdNoSession "t1" (by decide) (by decide) (by decide) (by decide) (by decide)
    (by decide)).2.2.1

/-- A false membership test means the lookup fails. -/
theorem dcontains_false_dget? {κ α : Type} [DecidableEq κ] (d : List (κ × α)) (k : κ)
    (h : dcontains d k = false) : dget? d k = none := by
  have hs := dcontains_eq_isSome d k
  rw [h] at hs
  cases hdg : dget? d k with
  | none => rfl
  | some v => rw [hdg] at hs; simp at hs

/-- A successful lookup locates an entry of the dictionary. -/
theorem dget?_some_mem {κ α : Type} [DecidableEq κ] (d : List (κ × α)) (k : κ) (v : α)
    (h : dget? d k = some v) : (k, v) ∈ d := by
  induction d with
  | nil => cases h
  | cons p rest ih =>
    obtain ⟨k', v'⟩ := p
    by_cases hk : k' = k
    · subst hk
      simp [dget?] at h
      rw [h]
      exact List.mem_cons_self _ _
    · simp [dget?, hk] at h
      exact List.mem_cons_of_mem _ (ih h)

/-- The cleanup pass for one agent maps each session to itself, with the
agent deleted where present. -/
theorem remove_agent_sessions_sessions_eq (sessions : List (String × Session))
    (aid : String) (now : Nat) :
    (remove_agent_sessions sessions aid now).1
      = sessions.map (fun p => if dcontains p.2.agents aid
          then (p.1, { p.2 with agents := derase p.2.agents aid }) else p) := by
  induction sessions with
  | nil => rfl
  | cons p rest ih =>
    obtain ⟨s', sess⟩ := p
    by_cases hc : dcontains sess.agents aid <;> simp [remove_agent_sessions, hc, ih]

/-- Lookup into the cleanup pass's resulting session registry. -/
theorem dget?_remove_agent_sessions (sessions : List (String × Session)) (aid : String)
    (now : Nat) (s : String) :
    dget? (remove_agent_sessions sessions aid now).1 s
      = (dget? sessions s).map
          (fun sess => if dcontains sess.agents aid
            then { sess with agents := derase sess.agents aid } else sess) := by
  induction sessions with
  | nil => rfl
  | cons p rest ih =>
    obtain ⟨s', sess⟩ := p
    by_cases hc : dcontains sess.agents aid <;>
      by_cases hk : s' = s <;>
        simp [remove_agent_sessions, dget?, hc, hk, ih]

/-- The per-agent event list the cleanup is specified to emit: one
agent-unregistered event, in registry order, for each session listing the
agent. -/
def expectedUnregEvents (sessions : List (String × Session)) (aid : String) (now : Nat) :
    List (Room × Event) :=
  (sessions.filter (fun p => dcontains p.2.agents aid)).map
    (fun p => (Room.session p.1, Event.agentUnregistered p.1 aid "disconnection" now))

/-- The cleanup pass for one agent emits exactly the expected events. -/
theorem remove_agent_sessions_events (sessions : List (String × Session)) (aid : String)
    (now : Nat) :
    (remove_agent_sessions sessions aid now).2 = expectedUnregEvents sessions aid now := by
  induction sessions with
  | nil => rfl
  | cons p rest ih =>
    obtain ⟨s', sess⟩ := p
    by_cases hc : dcontains sess.agents aid <;>
      simp [remove_agent_sessions, expectedUnregEvents, List.filter_cons, hc] <;>
        simpa [expectedUnregEvents] using ih

/-- Removing one agent does not change which sessions list another agent,
nor the events expected for that other agent. -/
theorem expectedUnregEvents_remove_ne (sessions : List (String × Session))
    (aid aid' : String) (now now' : Nat) (h : aid' ≠ aid) :
    expectedUnregEvents (remove_agent_sessions sessions aid now').1 aid' now
      = expectedUnregEvents sessions aid' now := by
  rw [remove_agent_sessions_sessions_eq]
  induction sessions with
  | nil => rfl
  | cons p rest ih =>
    obtain ⟨s', sess⟩ := p
    by_cases hc : dcontains sess.agents aid
    · by_cases hc' : dcontains sess.agents aid' <;>
        simp [expectedUnregEvents, List.filter_cons, hc, hc',
          dcontains_derase_ne _ _ _ h] <;>
          simpa [expectedUnregEvents] using ih
    · by_cases hc' : dcontains sess.agents aid' <;>
        simp [expectedUnregEvents, List.filter_cons, hc, hc'] <;>
          simpa [expectedUnregEvents] using ih

/-- After removing a list of agents, the registry answers none for each of
them and unchanged for every other key. -/
theorem remove_agents_registry (st : ServerState) (ids : List String) (now : Nat)
    (k : String) :
    dget? (remove_agents st ids now).1.registered_agents k
      = if k ∈ ids then none else dget? st.registered_agents k := by
  induction ids generalizing st with
  | nil => simp [remove_agents]
  | cons aid rest ih =>
    simp only [remove_agents]
    rw [ih]
    by_cases hk : k ∈ rest
    · simp [hk]
    · by_cases ha : k = aid
      · subst ha
        simp [hk, dget?_derase_self]
      · simp [hk, ha, dget?_derase_ne _ _ _ ha]

/-- An agent absent from every session stays absent through any further
removals. -/
theorem remove_agents_preserves_absent (st : ServerState) (ids : List String)
    (now : Nat) (aid : String)
    (h : ∀ s sess, dget? st.active_sessions s = some sess →
      dget? sess.agents aid = none) :
    ∀ s sess, dget? (remove_agents st ids now).1.active_sessions s = some sess →
      dget? sess.agents aid = none := by
  induction ids generalizing st with
  | nil => simpa [remove_agents] using h
  | cons a rest ih =>
    simp only [remove_agents]
    apply ih
    intro s sess hg
    rw [dget?_remove_agent_sessions] at hg
    cases hdg : dget? st.active_sessions s with
    | none => rw [hdg] at hg; cases hg
    | some sess0 =>
      rw [hdg] at hg
      simp only [Option.map_some'] at hg
      have h0 := h s sess0 hdg
      by_cases hc : dcontains sess0.agents a
      · rw [if_pos hc] at hg
        rw [← Option.some.inj hg]
        exact dget?_derase_none _ _ _ h0
      · rw [if_neg hc] at hg
        rw [← Option.some.inj hg]
        exact h0

/-- After removing a list of agents, no session lists any of them. -/
theorem remove_agents_sessions_none (st : ServerState) (ids : List String) (now : Nat) :
    ∀ aid ∈ ids, ∀ s sess,
      dget? (remove_agents st ids now).1.active_sessions s = some sess →
      dget? sess.agents aid = none := by
  induction ids generalizing st with
  | nil => intro aid h; cases h
  | cons a rest ih =>
    intro aid hmem s sess hg
    simp only [remove_agents] at hg
    rcases List.mem_cons.mp hmem with rfl | hmem'
    · refine remove_agents_preserves_absent _ rest now aid ?_ s sess hg
      intro s' sess' hg'
      rw [dget?_remove_agent_sessions] at hg'
      cases hdg : dget? st.active_sessions s' with
      | none => rw [hdg] at hg'; cases hg'
      | some sess0 =>
        rw [hdg] at hg'
        simp only [Option.map_some'] at hg'
        by_cases hc : dcontains sess0.agents aid
        · rw [if_pos hc] at hg'
          rw [← Option.some.inj hg']
          exact dget?_derase_self _ _
        · rw [if_neg hc] at hg'
          rw [← Option.some.inj hg']
          exact dcontains_false_dget? _ _ (Bool.not_eq_true _ ▸ hc)
    · exact ih _ aid hmem' s sess hg

/-- Removing a nodup list of agents emits, agent by agent, exactly the
events expected from the original session registry. -/
theorem remove_agents_events (st : ServerState) (ids : List String) (now : Nat) :
    ids.Nodup →
    (remove_agents st ids now).2
      = ids.flatMap (fun aid => expectedUnregEvents st.active_sessions aid now) := by
  induction ids generalizing st with
  | nil => intro _; rfl
  | cons a rest ih =>
    intro hnd
    rcases List.nodup_cons.mp hnd with ⟨hna, hnd'⟩
    simp only [remove_agents, List.flatMap_cons]
    rw [remove_agent_sessions_events]
    congr 1
    rw [ih _ hnd']
    have hcongr : ∀ aid ∈ rest,
        expectedUnregEvents (remove_agent_sessions st.active_sessions a now).1 aid now
          = expectedUnregEvents st.active_sessions aid now := by
      intro aid hmem
      exact expectedUnregEvents_remove_ne st.active_sessions a aid now now
        (fun hEq => hna (hEq ▸ hmem))
    clear ih hnd hnd'
    induction rest with
    | nil => rfl
    | cons b rest' ih' =>
      simp only [List.flatMap_cons]
      rw [hcongr b (List.mem_cons_self _ _),
        ih' (fun hx => hna (List.mem_cons_of_mem _ hx))
          (fun x hx => hcongr x (List.mem_cons_of_mem _ hx))]

/-- C7: After a disconnect, the registry holds no record for any agent the
connection owned, no session lists any of them any more, and the emitted
events are exactly one agent-unregistered event with reason disconnection
per owned-agent/listing-session pair. -/
theorem disconnect_cleanup_spec (st : ServerState) (sid : String) (now : Nat)
    (hnd : (st.registered_agents.map (fun p => p.1)).Nodup) :
    (∀ aid a, dget? st.registered_agents aid = some a → a.socket_id = some sid →
      dget? (disconnect st sid now).1.registered_agents aid = none) ∧
    (∀ aid a, dget? st.registered_agents aid = some a → a.socket_id = some sid →
      ∀ s sess, dget? (disconnect st sid now).1.active_sessions s = some sess →
        dget? sess.agents aid = none) ∧
    (disconnect st sid now).2
      = ((st.registered_agents.filter
            (fun p => decide (p.2.socket_id = some sid))).map (fun p => p.1)).flatMap
          (fun aid => expectedUnregEvents st.active_sessions aid now) := by
  have hmem : ∀ aid a, dget? st.registered_agents aid = some a → a.socket_id = some sid →
      aid ∈ (st.registered_agents.filter
        (fun p => decide (p.2.socket_id = some sid))).map (fun p => p.1) := by
    intro aid a hg hsock
    exact List.mem_map.mpr ⟨(aid, a),
      List.mem_filter.mpr ⟨dget?_some_mem _ _ _ hg, by simp [hsock]⟩, rfl⟩
  have hids_nd : ((st.registered_agents.filter
      (fun p => decide (p.2.socket_id = some sid))).map (fun p => p.1)).Nodup :=
    List.Nodup.sublist
      (List.Sublist.map (fun p : String × Agent => p.1) (List.filter_sublist _)) hnd
  refine ⟨?_, ?_, ?_⟩
  · intro aid a hg hsock
    simp only [disconnect]
    rw [remove_agents_registry]
    simp [hmem aid a hg hsock]
  · intro aid a hg hsock s sess hgs
    simp only [disconnect] at hgs
    exact remove_agents_sessions_none _ _ now aid (hmem aid a hg hsock) s sess hgs
  · simp only [disconnect]
    rw [remove_agents_events _ _ now hids_nd]

/-- Second example agent, owned by connection c2. -/
def exAgentB2 : Agent :=
  { id := "b2", type := some "vision", capabilities := some ["vision"],
    status := some "idle", socket_id := some "c2", metadata := none }

/-- Example session listing both agents. -/
def exSessionDisc : Session :=
  { sessionId := "sd", createdAt := 1, lastActivity := 1, status := "active",
    agents := [("a1", exAgentA1), ("b2", exAgentB2)], tasks := [],
    collaborationRequests := [],
    metrics := { totalTasks := 0, completedTasks := 0, errorCount := 0,
                 avgExecutionTime := 0 } }

/-- Example state for the disconnect witness. -/
def exStateDisc : ServerState :=
  { active_sessions := [("sd", exSessionDisc)],
    registered_agents := [("a1", exAgentA1), ("b2", exAgentB2)],
    server_stats := initial_server_stats 0 }

theorem disconnect_cleanup_spec_witness :
    dget? (disconnect exStateDisc "c1" 7).1.registered_agents "a1" = none :=
  (disconnect_cleanup_spec exStateDisc "c1" 7 (by decide)).1 "a1" exAgentA1
    (by decide) (by decide)

/-- The error counter starts no larger than the message counter. -/
theorem errors_le_messages_initial (t : Nat) :
    (initial_server_stats t).errors ≤ (initial_server_stats t).messages_processed :=
  Nat.le_refl 0

/-- start_task keeps the error counter bounded by the message counter. -/
theorem errors_le_messages_start_task (st : ServerState) (sid : String) (now : Nat)
    (td : TaskDefinition)
    (h : st.server_stats.errors ≤ st.server_stats.messages_processed) :
    (start_task st sid now td).1.server_stats.errors
      ≤ (start_task st sid now td).1.server_stats.messages_processed := by
  simp only [start_task]
  repeat' split
  all_goals first
    | exact h
    | exact Nat.succ_le_succ h
    | exact Nat.le_succ_of_le h

/-- agent_progress keeps the error counter bounded by the message counter. -/
theorem errors_le_messages_agent_progress (st : ServerState) (sid : String) (now : Nat)
    (pd : ProgressData)
    (h : st.server_stats.errors ≤ st.server_stats.messages_processed) :
    (agent_progress st sid now pd).1.server_stats.errors
      ≤ (agent_progress st sid now pd).1.server_stats.messages_processed := by
  simp only [agent_progress]
  repeat' split
  all_goals exact Nat.le_succ_of_le h

/-- collaboration_request keeps the error counter bounded by the message
counter. -/
theorem errors_le_messages_collaboration_request (st : ServerState) (sid : String)
    (now : Nat) (rd : RequestData)
    (h : st.server_stats.errors ≤ st.server_stats.messages_processed) :
    (collaboration_request st sid now rd).1.server_stats.errors
      ≤ (collaboration_request st sid now rd).1.server_stats.messages_processed := by
  rw [collaboration_request_state]
  exact Nat.le_succ_of_le h

/-- join_session does not touch the server counters. -/
theorem errors_le_messages_join_session (st : ServerState) (sid : String) (now : Nat)
    (data : JoinData)
    (h : st.server_stats.errors ≤ st.server_stats.messages_processed) :
    (join_session st sid now data).1.server_stats.errors
      ≤ (join_session st sid now data).1.server_stats.messages_processed := by
  simp only [join_session]
  repeat' split
  all_goals exact h

/-- Agent removal never touches the server counters. -/
theorem remove_agents_stats (st : ServerState) (ids : List String) (now : Nat) :
    (remove_agents st ids now).1.server_stats = st.server_stats := by
  induction ids generalizing st with
  | nil => rfl
  | cons a rest ih => simp only [remove_agents]; rw [ih]

/-- disconnect keeps the error counter bounded by the message counter. -/
theorem errors_le_messages_disconnect (st : ServerState) (sid : String) (now : Nat)
    (h : st.server_stats.errors ≤ st.server_stats.messages_processed) :
    (disconnect st sid now).1.server_stats.errors
      ≤ (disconnect st sid now).1.server_stats.messages_processed := by
  simp only [disconnect]
  rw [remove_agents_stats]
  exact h
